import Mathlib

/-!
Verification of the eye-roll trigger core of `src/eye_roll_scroll.py`:
a pure score function (`EyeRollDetector._eye_roll_score`,
`EyeRollDetector.process_landmarks`) and a stateful debounced trigger
gate (`EyeRollDetector.should_trigger`).

Modelling conventions:
* Python floats are embedded as `ℚ` (exact arithmetic; rounding is not
  modelled).  A possibly-NaN float score is embedded as `Option ℚ`, with
  `none` standing for NaN: every ordered comparison against NaN is false
  in IEEE semantics, which `pyGe` reproduces.
* `deque(maxlen = frames_required)` is a bounded FIFO: appending to a
  full deque evicts the oldest (leftmost) element; `appendBounded`
  models one append.
* `should_trigger` resolves its optional `now` argument with
  `now or time.time()`: a missing argument, and also a supplied `0.0`
  (falsy in Python), fall back to the ambient wall clock.  The wall
  clock is made an explicit parameter `clock` of `shouldTriggerPy`;
  the core decision logic on the resolved timestamp is `shouldTrigger`.
-/

/-- Runtime tunables of the detector (`EyeRollConfig` in the source).
`roll_threshold` and `debounce_seconds` are floats, `frames_required`
and `scroll_amount` ints; `frames_required` is used as a deque capacity
so it is modelled as a natural number. -/
structure EyeRollConfig where
  roll_threshold : ℚ
  frames_required : ℕ
  debounce_seconds : ℚ
  scroll_amount : ℤ
deriving DecidableEq, Repr

/-- Default configuration values from the source dataclass. -/
def defaultConfig : EyeRollConfig := ⟨13/20, 3, 1, 500⟩

/-- Mutable state of the trigger gate: `_recent_scores` (a bounded FIFO,
newest element last) and `_last_triggered`. -/
structure GateState where
  recent_scores : List (Option ℚ)
  last_triggered : ℚ
deriving DecidableEq, Repr

/-- State of a freshly constructed detector: empty deque and
`_last_triggered = 0.0`. -/
def initGate : GateState := ⟨[], 0⟩

/-- Python `s >= t` where `s` may be NaN (`none`): NaN compares false. -/
def pyGe (s : Option ℚ) (t : ℚ) : Bool :=
  match s with
  | none => false
  | some q => decide (t ≤ q)

/-- One `append` on a `deque(maxlen = cap)`: the new element goes to the
right and, if the capacity is exceeded, the oldest (leftmost) elements
are dropped down to `cap`. -/
def appendBounded (cap : ℕ) (xs : List (Option ℚ)) (x : Option ℚ) : List (Option ℚ) :=
  let ys := xs ++ [x]
  if cap < ys.length then ys.drop (ys.length - cap) else ys

/-- Core of `EyeRollDetector.should_trigger` on the resolved timestamp
`now`: debounce check, bounded append, fill check, threshold check,
clear-on-fire.  Returns the decision and the successor state. -/
def shouldTrigger (cfg : EyeRollConfig) (score : Option ℚ) (now : ℚ)
    (st : GateState) : Bool × GateState :=
  if now - st.last_triggered < cfg.debounce_seconds then
    (false, st)
  else
    let buf := appendBounded cfg.frames_required st.recent_scores score
    if buf.length < cfg.frames_required then
      (false, ⟨buf, st.last_triggered⟩)
    else if buf.all (fun s => pyGe s cfg.roll_threshold) then
      (true, ⟨[], now⟩)
    else
      (false, ⟨buf, st.last_triggered⟩)

/-- Resolution of the optional `now` argument, `now = now or time.time()`:
an absent argument and a supplied `0.0` (falsy) both yield the ambient
clock reading. -/
def effectiveNow (nowArg : Option ℚ) (clock : ℚ) : ℚ :=
  match nowArg with
  | none => clock
  | some t => if t = 0 then clock else t

/-- `EyeRollDetector.should_trigger` as called from Python: the optional
timestamp argument is resolved against the ambient wall clock first. -/
def shouldTriggerPy (cfg : EyeRollConfig) (score : Option ℚ)
    (nowArg : Option ℚ) (clock : ℚ) (st : GateState) : Bool × GateState :=
  shouldTrigger cfg score (effectiveNow nowArg clock) st

/-- Successor state of one `should_trigger` call (resolved timestamp). -/
def gateStep (cfg : EyeRollConfig) (st : GateState) (p : Option ℚ × ℚ) : GateState :=
  (shouldTrigger cfg p.1 p.2 st).2

/-- Decisions produced by a gate fed a stream of (score, resolved
timestamp) pairs. -/
def gateRun (cfg : EyeRollConfig) : GateState → List (Option ℚ × ℚ) → List Bool
  | _, [] => []
  | st, p :: rest =>
    (shouldTrigger cfg p.1 p.2 st).1 :: gateRun cfg (gateStep cfg st p) rest

/-- Decisions produced by a gate fed a stream of (score, optional
timestamp) pairs, under an ambient wall clock `clock` (the reading
`time.time()` would return at the k-th call). -/
def gateRunPy (cfg : EyeRollConfig) (clock : ℕ → ℚ) :
    GateState → ℕ → List (Option ℚ × Option ℚ) → List Bool
  | _, _, [] => []
  | st, k, p :: rest =>
    let r := shouldTriggerPy cfg p.1 p.2 (clock k) st
    r.1 :: gateRunPy cfg clock r.2 (k + 1) rest

/-- `EyeRollDetector._eye_roll_score` on the three y-coordinates. -/
def eyeRollScore (top_y bottom_y iris_y : ℚ) : ℚ :=
  let eye_height := bottom_y - top_y
  if eye_height ≤ 0 then 0 else (top_y - iris_y) / eye_height

/-- Fixed landmark index constants of the source. -/
def LEFT_EYE_TOP : ℕ := 159

/-- Fixed landmark index constants of the source. -/
def LEFT_EYE_BOTTOM : ℕ := 145

/-- Fixed landmark index constants of the source. -/
def LEFT_IRIS_CENTER : ℕ := 468

/-- Fixed landmark index constants of the source. -/
def RIGHT_EYE_TOP : ℕ := 386

/-- Fixed landmark index constants of the source. -/
def RIGHT_EYE_BOTTOM : ℕ := 374

/-- Fixed landmark index constants of the source. -/
def RIGHT_IRIS_CENTER : ℕ := 473

/-- `EyeRollDetector.process_landmarks`: the landmark collection is
modelled by the map from index to y-coordinate (only `.y` is read). -/
def processLandmarks (lm : ℕ → ℚ) : ℚ × ℚ :=
  (eyeRollScore (lm LEFT_EYE_TOP) (lm LEFT_EYE_BOTTOM) (lm LEFT_IRIS_CENTER),
   eyeRollScore (lm RIGHT_EYE_TOP) (lm RIGHT_EYE_BOTTOM) (lm RIGHT_IRIS_CENTER))

/-- The bounded append never exceeds the capacity. -/
theorem appendBounded_length_le (cap : ℕ) (xs : List (Option ℚ)) (x : Option ℚ) :
    (appendBounded cap xs x).length ≤ cap := by
  simp only [appendBounded, List.length_append, List.length_singleton]
  by_cases h : cap < xs.length + 1
  · simp only [h, if_true, List.length_drop, List.length_append,
      List.length_singleton]
    omega
  · simp only [h, if_false, List.length_append, List.length_singleton]
    omega

/-- The appended element is kept by the bounded append whenever the
capacity is at least one: the eviction drops from the left only. -/
theorem mem_appendBounded_self (cap : ℕ) (xs : List (Option ℚ)) (x : Option ℚ)
    (hcap : 1 ≤ cap) : x ∈ appendBounded cap xs x := by
  simp only [appendBounded, List.length_append, List.length_singleton]
  by_cases h : cap < xs.length + 1
  · simp only [h, if_true]
    rw [List.drop_append_of_le_length (by omega)]
    simp
  · simp [h]

/-- A true decision is only reached when the debounce interval has
elapsed relative to the state's `last_triggered`. -/
theorem trigger_true_debounce (cfg : EyeRollConfig) (s : Option ℚ) (t : ℚ)
    (st : GateState) (h : (shouldTrigger cfg s t st).1 = true) :
    cfg.debounce_seconds ≤ t - st.last_triggered := by
  unfold shouldTrigger at h
  by_cases hd : t - st.last_triggered < cfg.debounce_seconds
  · simp [hd] at h
  · exact le_of_not_lt hd

/-- A true decision sets `last_triggered` to the call's timestamp and
clears the buffer. -/
theorem trigger_true_state (cfg : EyeRollConfig) (s : Option ℚ) (t : ℚ)
    (st : GateState) (h : (shouldTrigger cfg s t st).1 = true) :
    (shouldTrigger cfg s t st).2 = ⟨[], t⟩ := by
  unfold shouldTrigger at h ⊢
  by_cases hd : t - st.last_triggered < cfg.debounce_seconds
  · simp [hd] at h
  · simp only [hd, if_false] at h ⊢
    by_cases hl : (appendBounded cfg.frames_required st.recent_scores s).length <
        cfg.frames_required
    · simp [hl] at h
    · by_cases ha : (appendBounded cfg.frames_required st.recent_scores s).all
          (fun s => pyGe s cfg.roll_threshold)
      · simp [hl, ha]
      · simp [hl, ha] at h

/-- A false decision leaves `last_triggered` unchanged. -/
theorem trigger_false_last (cfg : EyeRollConfig) (s : Option ℚ) (t : ℚ)
    (st : GateState) (h : (shouldTrigger cfg s t st).1 = false) :
    ((shouldTrigger cfg s t st).2).last_triggered = st.last_triggered := by
  unfold shouldTrigger at h ⊢
  by_cases hd : t - st.last_triggered < cfg.debounce_seconds
  · simp [hd]
  · simp only [hd, if_false] at h ⊢
    by_cases hl : (appendBounded cfg.frames_required st.recent_scores s).length <
        cfg.frames_required
    · simp [hl]
    · by_cases ha : (appendBounded cfg.frames_required st.recent_scores s).all
          (fun s => pyGe s cfg.roll_threshold)
      · simp [hl, ha] at h
      · simp [hl, ha]

/-- A run producing only false decisions preserves `last_triggered`. -/
theorem falseRun_last (cfg : EyeRollConfig) :
    ∀ (inputs : List (Option ℚ × ℚ)) (st : GateState),
      (∀ b ∈ gateRun cfg st inputs, b = false) →
      (List.foldl (gateStep cfg) st inputs).last_triggered = st.last_triggered := by
  intro inputs
  induction inputs with
  | nil => intro st _; rfl
  | cons p rest ih =>
    intro st hall
    have hhead : (shouldTrigger cfg p.1 p.2 st).1 = false := by
      apply hall
      simp [gateRun]
    have htail : ∀ b ∈ gateRun cfg (gateStep cfg st p) rest, b = false := by
      intro b hb
      apply hall
      simp [gateRun, hb]
    calc (List.foldl (gateStep cfg) st (p :: rest)).last_triggered
        = (List.foldl (gateStep cfg) (gateStep cfg st p) rest).last_triggered := by
          simp [List.foldl]
      _ = (gateStep cfg st p).last_triggered := ih (gateStep cfg st p) htail
      _ = st.last_triggered := trigger_false_last cfg p.1 p.2 st hhead

/-- C1: every `should_trigger(score, now)` call follows the five specified
steps in order: inside the debounce window it returns false with no state
change; otherwise the score is appended to the bounded FIFO of capacity
`frames_required`; an under-full buffer gives false (buffer retained);
a full buffer whose every entry is `>= roll_threshold` sets
`last_triggered = now`, clears the buffer and gives true; otherwise
false with the buffer retained. -/
theorem C1_should_trigger_steps (cfg : EyeRollConfig) (st : GateState)
    (score : Option ℚ) (now : ℚ) :
    (now - st.last_triggered < cfg.debounce_seconds →
      shouldTrigger cfg score now st = (false, st)) ∧
    (¬ now - st.last_triggered < cfg.debounce_seconds →
      (appendBounded cfg.frames_required st.recent_scores score).length <
          cfg.frames_required →
      shouldTrigger cfg score now st =
        (false, ⟨appendBounded cfg.frames_required st.recent_scores score,
          st.last_triggered⟩)) ∧
    (¬ now - st.last_triggered < cfg.debounce_seconds →
      ¬ (appendBounded cfg.frames_required st.recent_scores score).length <
          cfg.frames_required →
      (appendBounded cfg.frames_required st.recent_scores score).all
          (fun s => pyGe s cfg.roll_threshold) = true →
      shouldTrigger cfg score now st = (true, ⟨[], now⟩)) ∧
    (¬ now - st.last_triggered < cfg.debounce_seconds →
      ¬ (appendBounded cfg.frames_required st.recent_scores score).length <
          cfg.frames_required →
      (appendBounded cfg.frames_required st.recent_scores score).all
          (fun s => pyGe s cfg.roll_threshold) = false →
      shouldTrigger cfg score now st =
        (false, ⟨appendBounded cfg.frames_required st.recent_scores score,
          st.last_triggered⟩)) := by
  refine ⟨fun h1 => ?_, fun h1 h2 => ?_, fun h1 h2 h3 => ?_, fun h1 h2 h3 => ?_⟩
  · simp [shouldTrigger, h1]
  · simp [shouldTrigger, h1, h2]
  · simp [shouldTrigger, h1, h2, h3]
  · simp [shouldTrigger, h1, h2, h3]

/-- C2: `_eye_roll_score` returns 0 when `bottom_y - top_y <= 0` (also when
the two coincide or are inverted) and `(top_y - iris_y) / (bottom_y - top_y)`
otherwise; on `top_y = 0.2, bottom_y = 0.8, iris_y = 0.1` it yields
`0.1/0.6 = 1/6 ≈ 0.1667`. -/
theorem C2_eye_roll_score_spec :
    (∀ top_y bottom_y iris_y : ℚ, bottom_y - top_y ≤ 0 →
      eyeRollScore top_y bottom_y iris_y = 0) ∧
    (∀ top_y bottom_y iris_y : ℚ, 0 < bottom_y - top_y →
      eyeRollScore top_y bottom_y iris_y = (top_y - iris_y) / (bottom_y - top_y)) ∧
    eyeRollScore (1/5) (4/5) (1/10) = 1/6 ∧
    (∀ top_y iris_y : ℚ, eyeRollScore top_y top_y iris_y = 0) ∧
    (∀ top_y bottom_y iris_y : ℚ, bottom_y < top_y →
      eyeRollScore top_y bottom_y iris_y = 0) := by
  refine ⟨fun t b i h => ?_, fun t b i h => ?_, by norm_num [eyeRollScore],
    fun t i => ?_, fun t b i h => ?_⟩
  · simp [eyeRollScore, h]
  · simp [eyeRollScore, not_le.mpr h]
  · simp [eyeRollScore]
  · have : b - t ≤ 0 := by linarith
    simp [eyeRollScore, this]

/-- C5: a call landing inside the debounce window (`now - last_triggered <
debounce_seconds`) returns false and leaves the whole gate state unchanged:
the score is not appended and `last_triggered` keeps its value, so scores
arriving during the cooldown never combine with later scores. -/
theorem C5_cooldown_frozen (cfg : EyeRollConfig) (score : Option ℚ) (now : ℚ)
    (st : GateState) (h : now - st.last_triggered < cfg.debounce_seconds) :
    shouldTrigger cfg score now st = (false, st) := by
  simp [shouldTrigger, h]

/-- Witness for C5: with debounce 1 and a fire recorded at t = 10, the call
at t = 10.5 returns false and changes nothing. -/
theorem C5_cooldown_frozen_witness :
    shouldTrigger ⟨1/2, 1, 1, 500⟩ (some (7/10)) (21/2) ⟨[], 10⟩ =
      (false, ⟨[], 10⟩) :=
  C5_cooldown_frozen ⟨1/2, 1, 1, 500⟩ (some (7/10)) (21/2) ⟨[], 10⟩ (by norm_num)

/-- C7: a true decision occurs only when the buffer after the current
append holds exactly `frames_required` entries, every one of them passing
the `>= roll_threshold` comparison; proved for every gate state, hence in
particular for every reachable one. -/
theorem C7_true_needs_full_qualifying (cfg : EyeRollConfig) (score : Option ℚ)
    (now : ℚ) (st : GateState) (h : (shouldTrigger cfg score now st).1 = true) :
    (appendBounded cfg.frames_required st.recent_scores score).length =
        cfg.frames_required ∧
    ∀ x ∈ appendBounded cfg.frames_required st.recent_scores score,
      pyGe x cfg.roll_threshold = true := by
  unfold shouldTrigger at h
  by_cases hd : now - st.last_triggered < cfg.debounce_seconds
  · simp [hd] at h
  · simp only [hd, if_false] at h
    by_cases hl : (appendBounded cfg.frames_required st.recent_scores score).length <
        cfg.frames_required
    · simp [hl] at h
    · by_cases ha : (appendBounded cfg.frames_required st.recent_scores score).all
          (fun s => pyGe s cfg.roll_threshold)
      · refine ⟨le_antisymm (appendBounded_length_le _ _ _) (le_of_not_lt hl), ?_⟩
        intro x hx
        exact List.all_eq_true.mp ha x hx
      · simp [hl, ha] at h

/-- Witness for C7: a firing call with `frames_required = 2` whose updated
buffer is exactly the two qualifying scores. -/
theorem C7_true_needs_full_qualifying_witness :
    (appendBounded 2 [some 1] (some 1)).length = 2 ∧
    ∀ x ∈ appendBounded 2 [some 1] (some 1), pyGe x ((1:ℚ)/2) = true :=
  C7_true_needs_full_qualifying ⟨1/2, 2, 1, 500⟩ (some 1) 5 ⟨[some 1], 0⟩
    (by norm_num [shouldTrigger, appendBounded, pyGe])

/-- C6: immediately after a true decision the buffer is empty, and with
`frames_required >= 2` the very next call — whatever its score and
timestamp — cannot fire again: a full fresh streak is required. -/
theorem C6_clear_on_fire (cfg : EyeRollConfig) (score : Option ℚ) (now : ℚ)
    (st : GateState) (h : (shouldTrigger cfg score now st).1 = true) :
    ((shouldTrigger cfg score now st).2).recent_scores = [] ∧
    ∀ score2 now2, 2 ≤ cfg.frames_required →
      (shouldTrigger cfg score2 now2 (shouldTrigger cfg score now st).2).1 = false := by
  have hst : (shouldTrigger cfg score now st).2 = ⟨[], now⟩ :=
    trigger_true_state cfg score now st h
  refine ⟨by rw [hst], ?_⟩
  intro score2 now2 hreq
  rw [hst]
  unfold shouldTrigger
  by_cases hd : now2 - (⟨[], now⟩ : GateState).last_triggered < cfg.debounce_seconds
  · simp [hd]
  · have hbuf : appendBounded cfg.frames_required [] score2 = [score2] := by
      simp only [appendBounded, List.nil_append, List.length_singleton]
      have : ¬ cfg.frames_required < 1 := by omega
      simp [this]
    have hlen : (appendBounded cfg.frames_required [] score2).length <
        cfg.frames_required := by
      rw [hbuf]
      simpa using by omega
    simp [hd, hlen]

/-- Witness for C6: a firing call with `frames_required = 2` leaves an empty
buffer, and the immediately following call does not fire. -/
theorem C6_clear_on_fire_witness :
    ((shouldTrigger ⟨1/2, 2, 1, 500⟩ (some 1) 5 ⟨[some 1], 0⟩).2).recent_scores = [] ∧
    (shouldTrigger ⟨1/2, 2, 1, 500⟩ (some 1) 7
      (shouldTrigger ⟨1/2, 2, 1, 500⟩ (some 1) 5 ⟨[some 1], 0⟩).2).1 = false :=
  ⟨(C6_clear_on_fire ⟨1/2, 2, 1, 500⟩ (some 1) 5 ⟨[some 1], 0⟩
      (by norm_num [shouldTrigger, appendBounded, pyGe])).1,
   (C6_clear_on_fire ⟨1/2, 2, 1, 500⟩ (some 1) 5 ⟨[some 1], 0⟩
      (by norm_num [shouldTrigger, appendBounded, pyGe])).2 (some 1) 7 (by norm_num)⟩

/-- C8: `should_trigger` is a total function (no exception can be raised:
every input yields a defined boolean), a NaN score fails the
`>= roll_threshold` comparison, any buffer containing a NaN fails the
all-entries check, and a call fed a NaN score never fires (whenever at
least one frame is required, so that the threshold check inspects the
appended score at all). -/
theorem C8_nan_never_qualifies (cfg : EyeRollConfig) (st : GateState) (now : ℚ) :
    pyGe none cfg.roll_threshold = false ∧
    (∀ buf : List (Option ℚ), none ∈ buf →
      buf.all (fun s => pyGe s cfg.roll_threshold) = false) ∧
    (1 ≤ cfg.frames_required → (shouldTrigger cfg none now st).1 = false) := by
  have hnan : pyGe none cfg.roll_threshold = false := rfl
  have hall : ∀ buf : List (Option ℚ), none ∈ buf →
      buf.all (fun s => pyGe s cfg.roll_threshold) = false := by
    intro buf hmem
    rw [List.all_eq_false]
    exact ⟨none, hmem, by simp [pyGe]⟩
  refine ⟨hnan, hall, fun hreq => ?_⟩
  unfold shouldTrigger
  by_cases hd : now - st.last_triggered < cfg.debounce_seconds
  · simp [hd]
  · have hmem : (none : Option ℚ) ∈
        appendBounded cfg.frames_required st.recent_scores none :=
      mem_appendBounded_self cfg.frames_required st.recent_scores none hreq
    have hfalse := hall _ hmem
    by_cases hl : (appendBounded cfg.frames_required st.recent_scores none).length <
        cfg.frames_required
    · simp [hd, hl]
    · simp [hd, hl, hfalse]

/-- C9: in `process_landmarks` the left-eye score reads only the landmarks
at indices 159, 145 and 468, and the right-eye score only those at 386,
374 and 473: collections agreeing on an eye's triple give that eye the
same score, however the other eye's landmarks differ. -/
theorem C9_per_eye_independence (lm lm' : ℕ → ℚ) :
    (lm LEFT_EYE_TOP = lm' LEFT_EYE_TOP → lm LEFT_EYE_BOTTOM = lm' LEFT_EYE_BOTTOM →
      lm LEFT_IRIS_CENTER = lm' LEFT_IRIS_CENTER →
      (processLandmarks lm).1 = (processLandmarks lm').1) ∧
    (lm RIGHT_EYE_TOP = lm' RIGHT_EYE_TOP → lm RIGHT_EYE_BOTTOM = lm' RIGHT_EYE_BOTTOM →
      lm RIGHT_IRIS_CENTER = lm' RIGHT_IRIS_CENTER →
      (processLandmarks lm).2 = (processLandmarks lm').2) := by
  constructor
  · intro h1 h2 h3
    simp only [processLandmarks, h1, h2, h3]
  · intro h1 h2 h3
    simp only [processLandmarks, h1, h2, h3]

/-- C10: a freshly constructed gate (`last_triggered = 0.0`) with a positive
debounce window treats every call with `0 < now < debounce_seconds` as being
inside a cooldown: it returns false and appends nothing, as if the gate had
fired at time 0 although it never has. -/
theorem C10_fresh_gate_cooldown (cfg : EyeRollConfig) (score : Option ℚ)
    (now clock : ℚ) (_hdeb : 0 < cfg.debounce_seconds) (h0 : 0 < now)
    (h1 : now < cfg.debounce_seconds) :
    shouldTriggerPy cfg score (some now) clock initGate = (false, initGate) := by
  have hne : now ≠ 0 := ne_of_gt h0
  have heff : effectiveNow (some now) clock = now := by
    simp [effectiveNow, hne]
  unfold shouldTriggerPy
  rw [heff]
  have : now - initGate.last_triggered < cfg.debounce_seconds := by
    simp only [initGate, sub_zero]
    exact h1
  simp [shouldTrigger, this]

/-- Witness for C10: the default configuration, a supplied timestamp 0.5
and an arbitrary wall clock reading 99. -/
theorem C10_fresh_gate_cooldown_witness :
    shouldTriggerPy defaultConfig (some (9/10)) (some (1/2)) 99 initGate =
      (false, initGate) :=
  C10_fresh_gate_cooldown defaultConfig (some (9/10)) (1/2) 99
    (by norm_num [defaultConfig]) (by norm_num) (by norm_num [defaultConfig])

/-- Counterexample for C3 as stated: a timestamp of 0.0 is falsy in Python,
so `now or time.time()` discards it and reads the wall clock.  Two gates
with identical configuration and identical (score, now) input sequences —
a single call with score 0.6 and supplied timestamp 0.0 — produce
different decisions when their ambient wall clocks differ (readings 10
and 0.5), so the gate did read real time although the caller supplied
the timestamp. -/
theorem C3_zero_timestamp_counterexample :
    gateRunPy ⟨1/2, 1, 1, 500⟩ (fun _ => 10) initGate 0
        [(some (3/5), some 0)] = [true] ∧
    gateRunPy ⟨1/2, 1, 1, 500⟩ (fun _ => 1/2) initGate 0
        [(some (3/5), some 0)] = [false] := by
  constructor <;>
    norm_num [gateRunPy, shouldTriggerPy, effectiveNow, shouldTrigger,
      appendBounded, pyGe, initGate]

/-- C3 (amended): provided every caller-supplied timestamp is nonzero
(truthy as a Python float), two gates with identical configuration and
identical state fed identical (score, now) sequences produce identical
decision sequences, whatever and however different their ambient wall
clocks: real time is never consulted. -/
theorem C3_determinism_supplied_nonzero (cfg : EyeRollConfig) (st : GateState)
    (inputs : List (Option ℚ × Option ℚ)) (clock clock' : ℕ → ℚ) (k k' : ℕ)
    (h : ∀ p ∈ inputs, ∃ t, p.2 = some t ∧ t ≠ 0) :
    gateRunPy cfg clock st k inputs = gateRunPy cfg clock' st k' inputs := by
  induction inputs generalizing st k k' with
  | nil => rfl
  | cons p rest ih =>
    obtain ⟨t, hp, hne⟩ := h p (List.mem_cons_self p rest)
    have heff : ∀ c : ℚ, effectiveNow p.2 c = t := by
      intro c
      rw [hp]
      simp [effectiveNow, hne]
    have hrest : ∀ q ∈ rest, ∃ t, q.2 = some t ∧ t ≠ 0 := fun q hq =>
      h q (List.mem_cons_of_mem p hq)
    simp only [gateRunPy, shouldTriggerPy, heff]
    exact congrArg _ (ih _ _ _ hrest)

/-- Witness for the amended C3: one supplied nonzero timestamp, two wall
clocks (constant 1 versus constant 2) and two call counters. -/
theorem C3_determinism_supplied_nonzero_witness :
    gateRunPy ⟨13/20, 3, 1, 500⟩ (fun _ => 1) initGate 0
        [(some (7/10), some 10)] =
    gateRunPy ⟨13/20, 3, 1, 500⟩ (fun _ => 2) initGate 5
        [(some (7/10), some 10)] :=
  C3_determinism_supplied_nonzero ⟨13/20, 3, 1, 500⟩ initGate
    [(some (7/10), some 10)] (fun _ => 1) (fun _ => 2) 0 5
    (by intro p hp; simp only [List.mem_singleton] at hp; subst hp;
        exact ⟨10, rfl, by norm_num⟩)

/-- C4: driven with non-decreasing timestamps, two consecutive firing
decisions — one at `x`, one at `y`, with only non-firing decisions in
between — are at least `debounce_seconds` apart in their supplied
timestamps. -/
theorem C4_consecutive_fires_spaced (cfg : EyeRollConfig) (st : GateState)
    (pre mid post : List (Option ℚ × ℚ)) (x y : Option ℚ × ℚ)
    (_hmono : List.Chain' (fun p q : Option ℚ × ℚ => p.2 ≤ q.2)
      (pre ++ x :: (mid ++ y :: post)))
    (hx : (shouldTrigger cfg x.1 x.2 (List.foldl (gateStep cfg) st pre)).1 = true)
    (hmid : ∀ b ∈ gateRun cfg (List.foldl (gateStep cfg) st (pre ++ [x])) mid,
      b = false)
    (hy : (shouldTrigger cfg y.1 y.2
      (List.foldl (gateStep cfg) st (pre ++ [x] ++ mid))).1 = true) :
    cfg.debounce_seconds ≤ y.2 - x.2 := by
  have hstep : List.foldl (gateStep cfg) st (pre ++ [x]) =
      gateStep cfg (List.foldl (gateStep cfg) st pre) x := by
    rw [List.foldl_append]
    rfl
  have hlast2 : (gateStep cfg (List.foldl (gateStep cfg) st pre) x).last_triggered
      = x.2 := by
    show ((shouldTrigger cfg x.1 x.2 (List.foldl (gateStep cfg) st pre)).2).last_triggered = x.2
    rw [trigger_true_state cfg x.1 x.2 _ hx]
  have hst3 : List.foldl (gateStep cfg) st (pre ++ [x] ++ mid) =
      List.foldl (gateStep cfg) (gateStep cfg (List.foldl (gateStep cfg) st pre) x)
        mid := by
    rw [List.foldl_append, hstep]
  have hmid2 : ∀ b ∈ gateRun cfg
      (gateStep cfg (List.foldl (gateStep cfg) st pre) x) mid, b = false := by
    intro b hb
    apply hmid
    rwa [hstep]
  have hlast3 : (List.foldl (gateStep cfg)
      (gateStep cfg (List.foldl (gateStep cfg) st pre) x) mid).last_triggered
      = x.2 := by
    rw [falseRun_last cfg mid _ hmid2, hlast2]
  have hdeb := trigger_true_debounce cfg y.1 y.2 _ hy
  rw [hst3, hlast3] at hdeb
  linarith

/-- Witness for C4: a one-frame streak fires at t = 10 and again at t = 12
under a one-second debounce, and indeed 1 ≤ 12 - 10. -/
theorem C4_consecutive_fires_spaced_witness : (1 : ℚ) ≤ 12 - 10 :=
  C4_consecutive_fires_spaced ⟨1/2, 1, 1, 500⟩ initGate [] [] []
    ((some 1, 10) : Option ℚ × ℚ) ((some 1, 12) : Option ℚ × ℚ)
    (by norm_num [List.chain'_cons, List.chain'_singleton])
    (by norm_num [shouldTrigger, appendBounded, pyGe, initGate])
    (by simp [gateRun])
    (by norm_num [shouldTrigger, gateStep, appendBounded, pyGe, initGate])
